import Mathlib

/-!
Verification of the static news-site generator (`generate_site.py`).

The script is a linear extract-transform-render pipeline:
`load_data` scans a content tree for `YYYY-MM-DD.json` files, sorts the
loaded day records newest-first, and `main` renders one HTML page per day
plus an index page.  Below, the pure parts of the script are embedded as
executable Lean definitions: file contents are modelled as an abstract
JSON value, file-system reads as an `Except`-valued field of the input,
and the two renderers as functions to `String` (raising Python code is
modelled in the `Except String` monad).
-/

/-- A calendar date as produced by `datetime.strptime(s, "%Y-%m-%d").date()`. -/
structure Date where
  year : Nat
  month : Nat
  day : Nat
deriving DecidableEq, Repr

/-- Python `date` ordering (lexicographic on year, month, day), `a <= b`. -/
def Date.le (a b : Date) : Prop :=
  a.year < b.year ∨ (a.year = b.year ∧
    (a.month < b.month ∨ (a.month = b.month ∧ a.day ≤ b.day)))

/-- Strict version of `Date.le`. -/
def Date.lt (a b : Date) : Prop :=
  a.year < b.year ∨ (a.year = b.year ∧
    (a.month < b.month ∨ (a.month = b.month ∧ a.day < b.day)))

instance : DecidableRel Date.le := fun a b => by
  unfold Date.le; exact inferInstance

instance : DecidableRel Date.lt := fun a b => by
  unfold Date.lt; exact inferInstance

/-- The JSON values `json.load` can produce.  Numbers are modelled as
integers (the content files carry no fractional numbers, and no claim
depends on them). -/
inductive Json where
  | null : Json
  | bool (b : Bool) : Json
  | num (n : Int) : Json
  | str (s : String) : Json
  | arr (elems : List Json) : Json
  | obj (kvs : List (String × Json)) : Json
deriving Repr

/-- Python truthiness (`bool(v)`) of a JSON-derived value. -/
def pyFalsy : Json → Bool
  | .null => true
  | .bool b => !b
  | .num n => n == 0
  | .str s => s == ""
  | .arr xs => xs.isEmpty
  | .obj kvs => kvs.isEmpty

mutual

/-- Python `repr` of a JSON-derived value (strings quoted).  Used only via
`pyStr` on container values interpolated into f-strings; quoting detail is
a best-effort model and no claim depends on it. -/
def pyRepr : Json → String
  | .null => "None"
  | .bool b => if b then "True" else "False"
  | .num n => toString n
  | .str s => "\x27" ++ s ++ "\x27"
  | .arr xs => "[" ++ ", ".intercalate (pyReprList xs) ++ "]"
  | .obj kvs => "\x7b" ++ ", ".intercalate (pyReprKVs kvs) ++ "\x7d"

/-- `repr` of each element of a JSON array. -/
def pyReprList : List Json → List String
  | [] => []
  | x :: xs => pyRepr x :: pyReprList xs

/-- `repr` of each key-value pair of a JSON object. -/
def pyReprKVs : List (String × Json) → List String
  | [] => []
  | (k, v) :: rest => ("\x27" ++ k ++ "\x27: " ++ pyRepr v) :: pyReprKVs rest

end

/-- Python `str()` of a JSON-derived value, as interpolated by an f-string. -/
def pyStr : Json → String
  | .str s => s
  | j => pyRepr j

/-- `d.get(key)` on a parsed JSON object (`json.load` gives unique keys). -/
def pyLookup (kvs : List (String × Json)) (key : String) : Option Json :=
  (kvs.find? (fun p => p.1 == key)).map (fun p => p.2)

/-- Python `len(v)`: defined for arrays, objects and strings; raises
`TypeError` otherwise. -/
def pyLen : Json → Except String Nat
  | .arr xs => .ok xs.length
  | .obj kvs => .ok kvs.length
  | .str s => .ok s.toList.length
  | _ => .error "TypeError: object has no len()"

/-- Python `for x in v`: arrays yield elements, objects yield their keys,
strings yield one-character strings; other values raise `TypeError`. -/
def pyIter : Json → Except String (List Json)
  | .arr xs => .ok xs
  | .obj kvs => .ok (kvs.map (fun kv => .str kv.1))
  | .str s => .ok (s.toList.map (fun c => .str (String.singleton c)))
  | _ => .error "TypeError: object is not iterable"

/-- Whether a JSON value is hashable as a Python dict key (lists and dicts
are unhashable). -/
def hashableKey : Json → Bool
  | .arr _ => false
  | .obj _ => false
  | _ => true

/-- Equality of hashable JSON dict keys.  (Python additionally identifies
`True` with `1` as dict keys; no claim depends on that corner.) -/
def keyBeq : Json → Json → Bool
  | .null, .null => true
  | .bool a, .bool b => a == b
  | .num a, .num b => a == b
  | .str a, .str b => a == b
  | _, _ => false

/- ### Filename-date parsing: `datetime.strptime(stem, "%Y-%m-%d")` -/

/-- Gregorian leap year, as `datetime.date` validates it. -/
def isLeap (y : Nat) : Bool :=
  y % 4 == 0 && (y % 100 != 0 || y % 400 == 0)

/-- Days in a month, as `datetime.date` validates it. -/
def daysInMonth (y m : Nat) : Nat :=
  if m = 2 then (if isLeap y then 29 else 28)
  else if m = 4 ∨ m = 6 ∨ m = 9 ∨ m = 11 then 30
  else 31

/-- Decimal value of an ASCII digit. -/
def digitVal (c : Char) : Option Nat :=
  if '0' ≤ c ∧ c ≤ '9' then some (c.toNat - 48) else none

/-- Parse exactly two digits. -/
def parse2d : List Char → Option (Nat × List Char)
  | a :: b :: rest => do
    let x ← digitVal a
    let y ← digitVal b
    pure (10 * x + y, rest)
  | _ => none

/-- Parse exactly four digits. -/
def parse4d : List Char → Option (Nat × List Char)
  | a :: b :: c :: d :: rest => do
    let x ← digitVal a
    let y ← digitVal b
    let z ← digitVal c
    let w ← digitVal d
    pure (((10 * x + y) * 10 + z) * 10 + w, rest)
  | _ => none

/-- Parse a `%m`-style field: `strptime` matches `1[0-2]|0[1-9]|[1-9]`
greedily with backtracking, so a two-digit month in 1..12 is preferred and
a single digit 1..9 is the fallback.  `k` is the continuation that must
also succeed (the regex backtracks through the whole pattern). -/
def parseMonthField (cs : List Char) (k : Nat → List Char → Option Date) : Option Date :=
  match cs with
  | a :: b :: rest =>
    match digitVal a, digitVal b with
    | some x, some y =>
      let two := 10 * x + y
      if 1 ≤ two ∧ two ≤ 12 then
        match k two rest with
        | some d => some d
        | none => if 1 ≤ x then k x (b :: rest) else none
      else if 1 ≤ x then k x (b :: rest) else none
    | some x, none => if 1 ≤ x then k x (b :: rest) else none
    | _, _ => none
  | [a] =>
    match digitVal a with
    | some x => if 1 ≤ x then k x [] else none
    | none => none
  | [] => none

/-- Parse a `%d`-style field (`3[01]|[12]\d|0[1-9]|[1-9]`, values 1..31),
with the same backtracking shape as `parseMonthField`. -/
def parseDayField (cs : List Char) (k : Nat → List Char → Option Date) : Option Date :=
  match cs with
  | a :: b :: rest =>
    match digitVal a, digitVal b with
    | some x, some y =>
      let two := 10 * x + y
      if 1 ≤ two ∧ two ≤ 31 then
        match k two rest with
        | some d => some d
        | none => if 1 ≤ x then k x (b :: rest) else none
      else if 1 ≤ x then k x (b :: rest) else none
    | some x, none => if 1 ≤ x then k x (b :: rest) else none
    | _, _ => none
  | [a] =>
    match digitVal a with
    | some x => if 1 ≤ x then k x [] else none
    | none => none
  | [] => none

/-- `datetime.strptime(s, "%Y-%m-%d").date()`: a four-digit year, dashes,
a one-or-two-digit month and day, the whole string consumed, and the
resulting triple validated by the `date` constructor (year ≥ 1, real
calendar day). -/
def parseDate (s : String) : Option Date :=
  match parse4d s.toList with
  | none => none
  | some (y, rest) =>
    match rest with
    | '-' :: rest2 =>
      parseMonthField rest2 (fun m rest3 =>
        match rest3 with
        | '-' :: rest4 =>
          parseDayField rest4 (fun d rest5 =>
            if rest5 = [] ∧ 1 ≤ y ∧ 1 ≤ d ∧ d ≤ daysInMonth y m then
              some ⟨y, m, d⟩
            else none)
        | _ => none)
    | _ => none

/- ### The Loader (`load_data`) -/

/-- A Python exception raised while reading and JSON-decoding a file.
`json.JSONDecodeError` is a subclass of `ValueError`, so it is caught by
the script's `except ValueError` handler; I/O errors fall to the generic
handler. -/
inductive PyExc where
  | valueError (msg : String) : PyExc
  | other (msg : String) : PyExc
deriving Repr

/-- One file found by `os.walk` under the content root, in traversal
order: its full path, its base filename, and the outcome of
`json.load(open(path))`. -/
structure SrcFile where
  path : String
  name : String
  body : Except PyExc Json

/-- `file.endswith(".json")`. -/
def endswithJson (name : String) : Bool :=
  match name.toList.reverse with
  | 'n' :: 'o' :: 's' :: 'j' :: '.' :: _ => true
  | _ => false

/-- `Path(name).stem` for a name ending in `.json`: the name minus its
final 5 characters, except that the bare name `.json` is all stem
(a leading dot is not an extension in `pathlib`). -/
def stemOf (name : String) : String :=
  if name = ".json" then name
  else String.mk (name.toList.take (name.toList.length - 5))

/-- One day of loaded content: the parsed date, the file's JSON value
passed through as-is, and the originating path (diagnostics only). -/
structure DayRecord where
  date : Date
  content : Json
  file_path : String

/-- What `load_data`'s per-file `try` block contributes to `news_data`:
`none` when the file is skipped (non-`.json` name, invalid date stem, or
a read/decode exception). -/
def load_rec (f : SrcFile) : Option DayRecord :=
  if endswithJson f.name then
    match parseDate (stemOf f.name) with
    | none => none
    | some d =>
      match f.body with
      | .ok content => some ⟨d, content, f.path⟩
      | .error _ => none
  else none

/-- The diagnostic printed for a skipped `.json` file, if any.  A bad date
stem - and also a `json.JSONDecodeError`, being a `ValueError` subclass -
hits the `except ValueError` message; other exceptions hit the generic
message. -/
def load_diag (f : SrcFile) : Option String :=
  if endswithJson f.name then
    match parseDate (stemOf f.name) with
    | none => some ("Skipping file with invalid date format: " ++ f.path)
    | some _ =>
      match f.body with
      | .ok _ => none
      | .error (.valueError _) =>
        some ("Skipping file with invalid date format: " ++ f.path)
      | .error (.other e) => some ("Error reading " ++ f.path ++ ": " ++ e)
  else none

/-- The records appended to `news_data`, in `os.walk` traversal order. -/
def loaded_records (files : List SrcFile) : List DayRecord :=
  files.filterMap load_rec

/-- All diagnostics printed by the loader, in order. -/
def load_diags (files : List SrcFile) : List String :=
  files.filterMap load_diag

/-- Descending-date comparison used by
`news_data.sort(key=lambda x: x["date"], reverse=True)`. -/
def dayGe (a b : DayRecord) : Prop := Date.le b.date a.date

instance : DecidableRel dayGe := fun a b => by
  unfold dayGe; exact inferInstance

instance : IsTotal DayRecord dayGe :=
  ⟨by intro a b; unfold dayGe Date.le; omega⟩

instance : IsTrans DayRecord dayGe :=
  ⟨by intro a b c h1 h2; unfold dayGe Date.le at h1 h2 ⊢; omega⟩

/-- `load_data()`: collect the per-file records, then stable-sort by date
descending (Python's stable `sort` with `reverse=True` keeps equal dates
in traversal order, as insertion sort over `dayGe` does). -/
def load_data (files : List SrcFile) : List DayRecord :=
  List.insertionSort dayGe (loaded_records files)

/- ### Time formatting (`format_time`) -/

/-- The fields of a parsed `datetime` that the script observes
(`strftime("%H:%M")`), plus the rest for parser fidelity.  `tzoffset` is
the UTC offset in seconds, when one was given. -/
structure PyDateTime where
  year : Nat
  month : Nat
  day : Nat
  hour : Nat
  minute : Nat
  second : Nat
  microsecond : Nat
  tzoffset : Option Int
deriving DecidableEq, Repr

/-- Split a time string at the first `-`, else the first `+` (how
`fromisoformat` locates a UTC-offset suffix): returns the time part and,
if a sign was found, the sign with the characters after it. -/
def splitTzSign (cs : List Char) : List Char × Option (Char × List Char) :=
  match cs.findIdx? (fun c => c = '-') with
  | some i => (cs.take i, some ('-', cs.drop (i + 1)))
  | none =>
    match cs.findIdx? (fun c => c = '+') with
    | some i => (cs.take i, some ('+', cs.drop (i + 1)))
    | none => (cs, none)

/-- Parse `HH[:MM[:SS[.fff[fff]]]]` consuming the whole input, as
`_parse_hh_mm_ss_ff` does: two-digit components separated by `:`, and a
fraction of exactly 3 or 6 digits allowed only after the seconds. -/
def parseHMSF (cs : List Char) : Option (Nat × Nat × Nat × Nat) :=
  match parse2d cs with
  | none => none
  | some (h, rest) =>
    match rest with
    | [] => some (h, 0, 0, 0)
    | ':' :: rest2 =>
      match parse2d rest2 with
      | none => none
      | some (m, rest3) =>
        match rest3 with
        | [] => some (h, m, 0, 0)
        | ':' :: rest4 =>
          match parse2d rest4 with
          | none => none
          | some (s, rest5) =>
            match rest5 with
            | [] => some (h, m, s, 0)
            | '.' :: frac =>
              match frac.mapM digitVal with
              | none => none
              | some ds =>
                if ds.length = 3 then
                  some (h, m, s, (ds.foldl (fun a d => 10 * a + d) 0) * 1000)
                else if ds.length = 6 then
                  some (h, m, s, ds.foldl (fun a d => 10 * a + d) 0)
                else none
            | _ => none
        | _ => none
    | _ => none

/-- `datetime.fromisoformat`, as the pre-3.11 CPython parser documents it:
`YYYY-MM-DD[*HH[:MM[:SS[.fff[fff]]]][+HH:MM[:SS[.ffffff]]]]` where `*` is
ANY single separator character; the date components are validated by the
`date` constructor and the time components by the `time` constructor, and
the offset must be strictly within 24 hours. -/
def fromisoformat (s : String) : Option PyDateTime :=
  match parse4d s.toList with
  | none => none
  | some (y, rest) =>
    match rest with
    | '-' :: rest2 =>
      match parse2d rest2 with
      | none => none
      | some (mo, rest3) =>
        match rest3 with
        | '-' :: rest4 =>
          match parse2d rest4 with
          | none => none
          | some (d, rest5) =>
            if ¬(1 ≤ y ∧ 1 ≤ mo ∧ mo ≤ 12 ∧ 1 ≤ d ∧ d ≤ daysInMonth y mo) then
              none
            else
              match rest5 with
              | [] => some ⟨y, mo, d, 0, 0, 0, 0, none⟩
              | _sep :: tcs =>
                if tcs = [] then none
                else
                  let (timecs, tz) := splitTzSign tcs
                  match parseHMSF timecs with
                  | none => none
                  | some (h, mi, sec, us) =>
                    if ¬(h ≤ 23 ∧ mi ≤ 59 ∧ sec ≤ 59) then none
                    else
                      match tz with
                      | none => some ⟨y, mo, d, h, mi, sec, us, none⟩
                      | some (sign, tzcs) =>
                        match parseHMSF tzcs with
                        | none => none
                        | some (th, tm, ts, _) =>
                          if th * 3600 + tm * 60 + ts < 86400 then
                            let off : Int := th * 3600 + tm * 60 + ts
                            some ⟨y, mo, d, h, mi, sec, us,
                              some (if sign = '-' then -off else off)⟩
                          else none
        | _ => none
    | _ => none

/-- Zero-pad to two digits (Python `f"{n:02d}"` for the values in play). -/
def pad2 (n : Nat) : String :=
  if n < 10 then "0" ++ Nat.repr n else Nat.repr n

/-- Zero-pad to four digits (`strftime("%Y")` pads the year to 4). -/
def pad4 (n : Nat) : String :=
  if n < 10 then "000" ++ Nat.repr n
  else if n < 100 then "00" ++ Nat.repr n
  else if n < 1000 then "0" ++ Nat.repr n
  else Nat.repr n

/-- `iso_time_str.replace("Z", "+00:00")`: every occurrence of `Z` is
replaced, not just a trailing one. -/
def replaceZ (s : String) : String :=
  String.mk (s.toList.foldr
    (fun c acc => if c = 'Z' then '+' :: '0' :: '0' :: ':' :: '0' :: '0' :: acc
                  else c :: acc) [])

/-- `format_time(item.get("发布时间"))`.  A falsy value (absent key gives
`None`; also `""`, `0`, `[]`, ...) renders as the empty string; a truthy
string is parsed with `fromisoformat` after the `Z` replacement and
rendered `strftime("%H:%M")` on success; any parse failure - including
the `AttributeError` from `.replace` on a truthy non-string, swallowed by
the bare `except:` - passes the raw value through. -/
def format_time : Option Json → Json
  | none => .str ""
  | some v =>
    if pyFalsy v then .str ""
    else
      match v with
      | .str s =>
        match fromisoformat (replaceZ s) with
        | some dt => .str (pad2 dt.hour ++ ":" ++ pad2 dt.minute)
        | none => .str s
      | j => j

/-- `replace` as the spec's words describe it: substitute `+00:00` for a
single trailing `Z` only.  Used solely to compare the spec's sentence
against the code's `replaceZ`. -/
def replaceTrailingZ (s : String) : String :=
  match s.toList.reverse with
  | 'Z' :: rest => String.mk rest.reverse ++ "+00:00"
  | _ => s

/-- `format_time` as the spec's sentence would have it (trailing-`Z`
substitution only); the code refutation for claim C5 compares this with
`format_time`. -/
def format_time_spec : Option Json → Json
  | none => .str ""
  | some v =>
    if pyFalsy v then .str ""
    else
      match v with
      | .str s =>
        match fromisoformat (replaceTrailingZ s) with
        | some dt => .str (pad2 dt.hour ++ ":" ++ pad2 dt.minute)
        | none => .str s
      | j => j

/- ### The Path Resolver -/

/-- `str(date_obj.strftime("%Y-%m-%d"))`, also `str(date_obj)`. -/
def date_str (d : Date) : String :=
  pad4 d.year ++ "-" ++ pad2 d.month ++ "-" ++ pad2 d.day

/-- `get_daily_path(date_obj)` (for a present date):
`PUBLIC_DIR / str(year) / f"{month:02d}" / f"{day:02d}.html"`.  Note the
year is `str(...)`, not zero-padded. -/
def get_daily_path (d : Date) : String :=
  "public/" ++ Nat.repr d.year ++ "/" ++ pad2 d.month ++ "/" ++ pad2 d.day ++ ".html"

/-- The index page's link to a day:
`f"{year}/{month:02d}/{day:02d}.html"`. -/
def daily_link (d : Date) : String :=
  Nat.repr d.year ++ "/" ++ pad2 d.month ++ "/" ++ pad2 d.day ++ ".html"

/-- The constant `relative_root` of `generate_daily_page`: daily pages sit
exactly three levels below the output root. -/
def relative_root : String := "../../.."

/-- Split a relative POSIX path into components. -/
def splitSlashAux : List Char → List Char → List String
  | [], acc => [String.mk acc.reverse]
  | '/' :: rest, acc => String.mk acc.reverse :: splitSlashAux rest []
  | c :: rest, acc => splitSlashAux rest (c :: acc)

/-- Split a relative POSIX path into components. -/
def splitSlash (p : String) : List String :=
  splitSlashAux p.toList []

/-- Length of the common prefix of two component lists. -/
def commonPrefixLen : List String → List String → Nat
  | a :: as, b :: bs => if a = b then 1 + commonPrefixLen as bs else 0
  | _, _ => 0

/-- `os.path.dirname` / `Path.parent` for the relative paths in play. -/
def parentDir (p : String) : String :=
  "/".intercalate (splitSlash p).dropLast

/-- `os.path.relpath(toPath, start)` for normalized relative paths: drop
the common component prefix, go up once per remaining `start` component,
then down into the remaining target components. -/
def relpath (toPath start : String) : String :=
  let t := splitSlash toPath
  let s := splitSlash start
  let k := commonPrefixLen t s
  let parts := List.replicate (s.length - k) ".." ++ t.drop k
  if parts = [] then "." else "/".intercalate parts

/-- `get_relative_path(from_path, to_path)` =
`os.path.relpath(to_path, from_path.parent)`. -/
def get_relative_path (from_path to_path : String) : String :=
  relpath to_path (parentDir from_path)

/- ### The Page Renderer -/

/-- `generate_navbar(relative_root)`. -/
def generate_navbar (rel_root : String) : String :=
  "\n    <nav class=\"navbar navbar-expand-lg navbar-dark bg-primary mb-4\">\n        <div class=\"container\">\n            <a class=\"navbar-brand\" href=\"" ++ rel_root ++ "/index.html\">News Morning Paper</a>\n        </div>\n    </nav>\n    "

/-- `item.get("标题", "No Title")` as interpolated. -/
def item_title (kvs : List (String × Json)) : String :=
  pyStr ((pyLookup kvs "标题").getD (.str "No Title"))

/-- `item.get("链接", "#")` as interpolated. -/
def item_link (kvs : List (String × Json)) : String :=
  pyStr ((pyLookup kvs "链接").getD (.str "#"))

/-- `item.get("分类", "General")` as interpolated. -/
def item_category (kvs : List (String × Json)) : String :=
  pyStr ((pyLookup kvs "分类").getD (.str "General"))

/-- `source = item.get("来源", "Unknown")` as interpolated. -/
def item_source (kvs : List (String × Json)) : String :=
  pyStr ((pyLookup kvs "来源").getD (.str "Unknown"))

/-- `item.get("内容", "")` as interpolated. -/
def item_body (kvs : List (String × Json)) : String :=
  pyStr ((pyLookup kvs "内容").getD (.str ""))

/-- `format_time(item.get("发布时间"))` as interpolated. -/
def item_time (kvs : List (String × Json)) : String :=
  pyStr (format_time (pyLookup kvs "发布时间"))

/-- The per-item card appended to `items_html` in `generate_section_html`. -/
def item_html (kvs : List (String × Json)) : String :=
  "\n        <div class=\"col-md-12 mb-3\">\n            <div class=\"card news-card h-100\">\n                <div class=\"card-body\">\n                    <div class=\"d-flex justify-content-between align-items-start\">\n                        <h5 class=\"card-title text-primary\"><a href=\"" ++ item_link kvs ++ "\" target=\"_blank\" class=\"text-decoration-none\">" ++ item_title kvs ++ "</a></h5>\n                        <span class=\"badge bg-secondary\">" ++ item_category kvs ++ "</span>\n                    </div>\n                    <h6 class=\"card-subtitle mb-2 text-muted\">" ++ item_source kvs ++ " - " ++ item_time kvs ++ "</h6>\n                    <p class=\"card-text\">" ++ item_body kvs ++ "</p>\n                </div>\n            </div>\n        </div>\n        "

/-- `generate_section_html(section_name, items)`: the items loop then the
section wrapper.  The grouped entries are dicts by construction (a
non-dict entry already raised during grouping). -/
def generate_section_html (section_name : Json) (items : List (List (String × Json))) : String :=
  let items_html := items.foldl (fun acc it => acc ++ item_html it) ""
  "\n    <div class=\"row mb-5\">\n        <div class=\"col-12\">\n            <h2 class=\"section-header\">" ++ pyStr section_name ++ "</h2>\n            <div class=\"row\">\n                " ++ items_html ++ "\n            </div>\n        </div>\n    </div>\n    "

/-- `section = entry.get("版块", "Uncategorized")`. -/
def section_key (kvs : List (String × Json)) : Json :=
  (pyLookup kvs "版块").getD (.str "Uncategorized")

/-- `sections[section].append(entry)` on an insertion-ordered
`defaultdict(list)`. -/
def addToSection (secs : List (Json × List (List (String × Json))))
    (key : Json) (entry : List (String × Json)) :
    List (Json × List (List (String × Json))) :=
  match secs with
  | [] => [(key, [entry])]
  | (k, es) :: rest =>
    if keyBeq k key then (k, es ++ [entry]) :: rest
    else (k, es) :: addToSection rest key entry

/-- The `for entry in content:` grouping loop of `generate_daily_page`.
`entry.get` raises `AttributeError` on a non-dict entry, and indexing
`sections[section]` raises `TypeError` when the section value is an
unhashable list or dict. -/
def group_sections (entries : List Json)
    (secs : List (Json × List (List (String × Json)))) :
    Except String (List (Json × List (List (String × Json)))) :=
  match entries with
  | [] => .ok secs
  | entry :: rest =>
    match entry with
    | .obj kvs =>
      let key := section_key kvs
      if hashableKey key then group_sections rest (addToSection secs key kvs)
      else .error "TypeError: unhashable type"
    | _ => .error "AttributeError: object has no attribute get"

/-- The enabled/disabled control for the chronologically later neighbor -
the conditional expression labeled `&larr; Next Day` in
`generate_daily_page`. -/
def next_control (output_file : String) : Option Date → String
  | some nd =>
    "<a href=\"" ++ get_relative_path output_file (get_daily_path nd) ++ "\" class=\"btn btn-outline-primary me-2\">&larr; Next Day</a>"
  | none =>
    "<button class=\"btn btn-outline-secondary me-2\" disabled>&larr; Next Day</button>"

/-- The enabled/disabled control for the chronologically earlier neighbor -
labeled `Previous Day &rarr;`. -/
def prev_control (output_file : String) : Option Date → String
  | some pd =>
    "<a href=\"" ++ get_relative_path output_file (get_daily_path pd) ++ "\" class=\"btn btn-outline-primary\">Previous Day &rarr;</a>"
  | none =>
    "<button class=\"btn btn-outline-secondary\" disabled>Previous Day &rarr;</button>"

/-- The `<style>` block of a daily page. -/
def daily_css : String :=
  "        .news-card \x7b transition: transform 0.2s; \x7d\n        .news-card:hover \x7b transform: translateY(-5px); box-shadow: 0 4px 15px rgba(0,0,0,0.1); \x7d\n        .section-header \x7b border-left: 5px solid #0d6efd; padding-left: 10px; margin-bottom: 20px; \x7d\n"

/-- The rendering part of `generate_daily_page(item, previous_date,
next_date)`: everything but the `mkdir` and the file write.  `nowYear` is
`datetime.now().year` (the footer's copyright year, the run's only
non-deterministic input). -/
def generate_daily_page (item : DayRecord) (previous_date next_date : Option Date)
    (nowYear : Nat) : Except String String := do
  let date_obj := item.date
  let output_file := get_daily_path date_obj
  let entries ← pyIter item.content
  let sections ← group_sections entries []
  pure ("<!DOCTYPE html>\n<html lang=\"zh-CN\">\n<head>\n    <meta charset=\"UTF-8\">\n    <meta name=\"viewport\" content=\"width=device-width, initial-scale=1.0\">\n    <title>" ++ date_str date_obj ++ " News Morning Paper</title>\n    <link href=\"https://cdn.jsdelivr.net/npm/bootstrap@5.3.0/dist/css/bootstrap.min.css\" rel=\"stylesheet\">\n    <style>\n" ++ daily_css ++ "    </style>\n</head>\n<body class=\"bg-light\">\n    " ++ generate_navbar relative_root ++ "\n    \n    <div class=\"container\">\n        <div class=\"d-flex justify-content-between align-items-center mb-4\">\n            <h1>" ++ date_str date_obj ++ " News</h1>\n            <div>\n                " ++ next_control output_file next_date ++ "\n                " ++ prev_control output_file previous_date ++ "\n            </div>\n        </div>\n\n        " ++ String.join (sections.map (fun s => generate_section_html s.1 s.2)) ++ "\n        \n    </div>\n\n    <footer class=\"bg-dark text-white text-center py-3 mt-5\">\n        <p>&copy; " ++ Nat.repr nowYear ++ " News Morning Paper. All rights reserved.</p>\n    </footer>\n\n    <script src=\"https://cdn.jsdelivr.net/npm/bootstrap@5.3.0/dist/js/bootstrap.bundle.min.js\"></script>\n</body>\n</html>\n")

/- ### The index page (`generate_index`) -/

/-- One `list_items` row of the index page for a day with `n` items. -/
def index_row_str (d : Date) (n : Nat) : String :=
  "\n        <a href=\"" ++ daily_link d ++ "\" class=\"list-group-item list-group-item-action d-flex justify-content-between align-items-center\">\n            <div>\n                <h5 class=\"mb-1\">" ++ date_str d ++ "</h5>\n                <small class=\"text-muted\">" ++ Nat.repr n ++ " news items</small>\n            </div>\n            <span class=\"badge bg-primary rounded-pill\">View &rarr;</span>\n        </a>\n        "

/-- The loop body of `generate_index`: `len(item["content"])` can raise
`TypeError` on non-sized content. -/
def index_row (item : DayRecord) : Except String String := do
  let total_items ← pyLen item.content
  pure (index_row_str item.date total_items)

/-- The `list_items` accumulation over `recent_news = news_data[:5]`. -/
def list_items_str (data : List DayRecord) : Except String String :=
  (data.take 5).foldlM (fun acc it => do
    let r ← index_row it
    pure (acc ++ r)) ""

/-- `{list_items if list_items else "<div ...>No news data found.</div>"}`. -/
def index_list_section (li : String) : String :=
  if li = "" then "<div class=\"list-group-item\">No news data found.</div>" else li

/-- The `<style>` block of the index page. -/
def index_css : String :=
  "        body \x7b background-color: #f8f9fa; \x7d\n        .header-section \x7b background: linear-gradient(135deg, #667eea 0%, #764ba2 100%); color: white; padding: 60px 0; margin-bottom: 40px; \x7d\n"

/-- The rendering part of `generate_index(news_data)` (everything but the
file write). -/
def generate_index (news_data : List DayRecord) (nowYear : Nat) : Except String String := do
  let li ← list_items_str news_data
  pure ("<!DOCTYPE html>\n<html lang=\"zh-CN\">\n<head>\n    <meta charset=\"UTF-8\">\n    <meta name=\"viewport\" content=\"width=device-width, initial-scale=1.0\">\n    <title>News Morning Paper Archive</title>\n    <link href=\"https://cdn.jsdelivr.net/npm/bootstrap@5.3.0/dist/css/bootstrap.min.css\" rel=\"stylesheet\">\n    <style>\n" ++ index_css ++ "    </style>\n</head>\n<body>\n    <div class=\"header-section text-center\">\n        <div class=\"container\">\n            <h1 class=\"display-4\">News Morning Paper</h1>\n            <p class=\"lead\">Your daily dose of technology and industry updates.</p>\n        </div>\n    </div>\n    \n    <div class=\"container\">\n        <div class=\"row justify-content-center\">\n            <div class=\"col-md-8\">\n                <div class=\"card shadow-sm\">\n                    <div class=\"card-header bg-white\">\n                        <h4 class=\"mb-0\">Recent Archives (Last 5 Days)</h4>\n                    </div>\n                    <div class=\"list-group list-group-flush\">\n                        " ++ index_list_section li ++ "\n                    </div>\n                </div>\n            </div>\n        </div>\n    </div>\n\n    <footer class=\"text-center py-4 mt-5 text-muted\">\n        <p>&copy; " ++ Nat.repr nowYear ++ " News Morning Paper</p>\n    </footer>\n\n    <script src=\"https://cdn.jsdelivr.net/npm/bootstrap@5.3.0/dist/js/bootstrap.bundle.min.js\"></script>\n</body>\n</html>\n")

/- ### The Orchestrator (`main`) -/

/-- `next_date = data[i-1]["date"] if i > 0 else None`. -/
def nextDateAt (data : List DayRecord) (i : Nat) : Option Date :=
  if 0 < i then (data.get? (i - 1)).map (fun r => r.date) else none

/-- `prev_date = data[i+1]["date"] if i < len(data) - 1 else None`. -/
def prevDateAt (data : List DayRecord) (i : Nat) : Option Date :=
  if i < data.length - 1 then (data.get? (i + 1)).map (fun r => r.date) else none

/-- An output artifact: destination path plus HTML text. -/
structure Written where
  path : String
  html : String
deriving DecidableEq, Repr

/-- `main()` as a function from the scanned files (and the current year)
to the pages written, in write order.  An empty dataset returns before
`generate_index` is ever called; otherwise the index page is written
first, then every daily page with its computed neighbors. -/
def main_run (files : List SrcFile) (nowYear : Nat) : Except String (List Written) :=
  let data := load_data files
  if data.isEmpty then .ok []
  else do
    let idx ← generate_index data nowYear
    let pages ← data.enum.mapM (fun p => do
      let h ← generate_daily_page p.2 (prevDateAt data p.1) (nextDateAt data p.1) nowYear
      pure (⟨get_daily_path p.2.date, h⟩ : Written))
    pure (⟨"public/index.html", idx⟩ :: pages)

/-- The index rows computed one by one (specification-side restatement of
the `list_items` loop, used to expose its per-entry structure). -/
def rows_of : List DayRecord → Except String (List String)
  | [] => .ok []
  | x :: xs => do
    let r ← index_row x
    let rs ← rows_of xs
    pure (r :: rs)

/-- Concatenation of a list of strings in order. -/
def strConcat : List String → String
  | [] => ""
  | s :: rest => s ++ strConcat rest

/- ### Helper lemmas -/

/-- `Date.le` plus distinctness gives `Date.lt`. -/
theorem Date.lt_of_le_of_ne {a b : Date} (hle : Date.le a b) (hne : a ≠ b) :
    Date.lt a b := by
  rcases a with ⟨y1, m1, d1⟩
  rcases b with ⟨y2, m2, d2⟩
  have h2 : ¬(y1 = y2 ∧ m1 = m2 ∧ d1 = d2) := by
    intro ⟨e1, e2, e3⟩
    subst e1; subst e2; subst e3
    exact hne rfl
  simp only [Date.le] at hle
  simp only [Date.lt]
  omega

/-- Bind of a successful `Except` computation. -/
theorem except_bind_ok {ε α β : Type} (a : α) (f : α → Except ε β) :
    (Except.ok a : Except ε α) >>= f = f a := rfl

/-- `pad2` always renders exactly two characters for the two-digit range. -/
theorem pad2_length (n : Nat) (h : n ≤ 99) : (pad2 n).length = 2 := by
  interval_cases n <;> decide

/- ### Claim theorems -/

/-- Claim C5, refutation of the claim as stated: the code substitutes
`+00:00` for EVERY `Z`, not only a trailing one.  The string
`"2024-01-02Z03:04"` has no trailing `Z` yet parses as ISO-8601 (the
pre-3.11 `fromisoformat` accepts any single character as the date-time
separator), so the claim's trailing-only substitution renders `"03:04"`;
the code's replace-all mangles the separator, the parse fails, and the
raw string is passed through. -/
theorem C5_counterexample :
    format_time_spec (some (.str "2024-01-02Z03:04")) = .str "03:04" ∧
    format_time (some (.str "2024-01-02Z03:04")) = .str "2024-01-02Z03:04" ∧
    "2024-01-02Z03:04" ≠ "03:04" :=
  ⟨rfl, rfl, by decide⟩

/-- Claim C5 (amended: the code substitutes `+00:00` for every occurrence
of `Z`, not only a trailing one): an absent publish-time renders as the
empty string; a string that parses as ISO-8601 after the substitution
renders as zero-padded `HH:MM`; a string that fails to parse is passed
through unchanged (`format_time` is total, so formatting never raises). -/
theorem C5_format_time :
    format_time none = Json.str "" ∧
    (∀ (s : String) (dt : PyDateTime), fromisoformat (replaceZ s) = some dt →
      format_time (some (.str s)) = .str (pad2 dt.hour ++ ":" ++ pad2 dt.minute)) ∧
    (∀ s : String, fromisoformat (replaceZ s) = none →
      format_time (some (.str s)) = .str s) := by
  refine ⟨rfl, ?_, ?_⟩
  · intro s dt h
    by_cases hs : s = ""
    · subst hs
      rw [show replaceZ "" = "" from rfl] at h
      rw [show fromisoformat "" = (none : Option PyDateTime) from rfl] at h
      exact Option.noConfusion h
    · simp [format_time, pyFalsy, hs, h]
  · intro s h
    by_cases hs : s = ""
    · subst hs; rfl
    · simp [format_time, pyFalsy, hs, h]

/-- Claim C5, witness: the spec's own example `"2024-01-02T03:04:05Z"`
renders as `"03:04"`, and an absent field renders as `""`. -/
theorem C5_format_time_w :
    format_time (some (.str "2024-01-02T03:04:05Z")) = .str "03:04" ∧
    format_time none = .str "" := by
  have h := C5_format_time.2.1 "2024-01-02T03:04:05Z" ⟨2024, 1, 2, 3, 4, 5, 0, some 0⟩
    (by decide)
  exact ⟨by rw [h]; rfl, C5_format_time.1⟩

/-- Claim C7 (confirmed): an item missing its title, category, source,
link or body field renders with the literal defaults `No Title`,
`General`, `Unknown`, `#` and the empty string respectively. -/
theorem C7_defaults (kvs : List (String × Json)) :
    (pyLookup kvs "标题" = none → item_title kvs = "No Title") ∧
    (pyLookup kvs "分类" = none → item_category kvs = "General") ∧
    (pyLookup kvs "来源" = none → item_source kvs = "Unknown") ∧
    (pyLookup kvs "链接" = none → item_link kvs = "#") ∧
    (pyLookup kvs "内容" = none → item_body kvs = "") := by
  refine ⟨?_, ?_, ?_, ?_, ?_⟩ <;>
    (intro h;
     simp [item_title, item_category, item_source, item_link, item_body, h, pyStr])

/-- Claim C7, witness: the empty item (all fields absent) renders every
documented default. -/
theorem C7_defaults_w :
    item_title [] = "No Title" ∧ item_category [] = "General" ∧
    item_source [] = "Unknown" ∧ item_link [] = "#" ∧ item_body [] = "" :=
  ⟨(C7_defaults []).1 rfl, (C7_defaults []).2.1 rfl, (C7_defaults []).2.2.1 rfl,
   (C7_defaults []).2.2.2.1 rfl, (C7_defaults []).2.2.2.2 rfl⟩

/-- Claim C10 (confirmed): the render-time defaults are substituted only
when the key is absent - a key present with the empty-string value
renders as the empty string (in particular an empty section name stays
empty rather than becoming `Uncategorized`), and publish-time renders
empty both when absent and when present-but-empty. -/
theorem C10_present_empty (kvs : List (String × Json)) :
    (pyLookup kvs "标题" = some (.str "") → item_title kvs = "") ∧
    (pyLookup kvs "分类" = some (.str "") → item_category kvs = "") ∧
    (pyLookup kvs "来源" = some (.str "") → item_source kvs = "") ∧
    (pyLookup kvs "链接" = some (.str "") → item_link kvs = "") ∧
    (pyLookup kvs "内容" = some (.str "") → item_body kvs = "") ∧
    (pyLookup kvs "版块" = some (.str "") →
      section_key kvs = .str "" ∧ pyStr (section_key kvs) = "") ∧
    (pyLookup kvs "发布时间" = some (.str "") → item_time kvs = "") ∧
    (pyLookup kvs "发布时间" = none → item_time kvs = "") := by
  refine ⟨?_, ?_, ?_, ?_, ?_, ?_, ?_, ?_⟩ <;> intro h <;>
    simp [item_title, item_category, item_source, item_link, item_body, item_time,
          section_key, format_time, pyFalsy, h, pyStr]

/-- Claim C10, witness: an item carrying the empty string in every
recognised field renders the empty string everywhere (and an absent
publish-time also renders empty). -/
theorem C10_present_empty_w :
    item_title [("标题", .str "")] = "" ∧
    item_category [("分类", .str "")] = "" ∧
    item_source [("来源", .str "")] = "" ∧
    item_link [("链接", .str "")] = "" ∧
    item_body [("内容", .str "")] = "" ∧
    section_key [("版块", .str "")] = .str "" ∧
    item_time [("发布时间", .str "")] = "" ∧
    item_time [] = "" :=
  ⟨(C10_present_empty _).1 rfl, (C10_present_empty _).2.1 rfl,
   (C10_present_empty _).2.2.1 rfl, (C10_present_empty _).2.2.2.1 rfl,
   (C10_present_empty _).2.2.2.2.1 rfl,
   ((C10_present_empty [("版块", .str "")]).2.2.2.2.2.1 rfl).1,
   (C10_present_empty _).2.2.2.2.2.2.1 rfl,
   (C10_present_empty []).2.2.2.2.2.2.2 rfl⟩

/-- Claim C9, refutation of the claim as stated: the output path renders
the year with `str(...)`, which does not zero-pad.  The stem
`"0033-01-02"` is a valid `%Y-%m-%d` date, but its daily page lands at
`public/33/01/02.html`, not under a four-digit year directory. -/
theorem C9_counterexample :
    parseDate "0033-01-02" = some ⟨33, 1, 2⟩ ∧
    get_daily_path ⟨33, 1, 2⟩ = "public/33/01/02.html" ∧
    get_daily_path ⟨33, 1, 2⟩ ≠ "public/" ++ pad4 33 ++ "/01/02.html" :=
  ⟨by decide, by decide, by decide⟩

/-- Claim C9 (amended: the year component is the unpadded decimal
rendering of the year - four digits only for years ≥ 1000 - while month
and day are zero-padded to two digits): the daily output path is
`public/<year>/<MM>/<DD>.html`, it agrees with the index page's link
convention, and the relative path back to the output root is the fixed
constant `../../..`, never recomputed. -/
theorem C9_daily_path (d : Date) :
    get_daily_path d =
      "public/" ++ Nat.repr d.year ++ "/" ++ pad2 d.month ++ "/" ++ pad2 d.day ++ ".html" ∧
    (d.month ≤ 99 → (pad2 d.month).length = 2) ∧
    (d.day ≤ 99 → (pad2 d.day).length = 2) ∧
    relative_root = "../../.." ∧
    get_daily_path d = "public/" ++ daily_link d := by
  refine ⟨rfl, fun h => pad2_length _ h, fun h => pad2_length _ h, rfl, ?_⟩
  simp [get_daily_path, daily_link, String.append_assoc]

/-- Claim C9, witness at a concrete date. -/
theorem C9_daily_path_w :
    (pad2 1).length = 2 ∧ (pad2 2).length = 2 ∧
    get_daily_path ⟨2024, 1, 2⟩ = "public/" ++ daily_link ⟨2024, 1, 2⟩ :=
  ⟨(C9_daily_path ⟨2024, 1, 2⟩).2.1 (by decide),
   (C9_daily_path ⟨2024, 1, 2⟩).2.2.1 (by decide),
   (C9_daily_path ⟨2024, 1, 2⟩).2.2.2.2⟩

/-- Claim C2, refutation of the claim as stated: on an empty dataset
`main` returns before `generate_index` is called, so the run writes no
pages at all - in particular NO index page with the placeholder row. -/
theorem C2_counterexample :
    main_run [] 2024 = Except.ok [] ∧
    (main_run [] 2024).map (fun ws => ws.map (fun w => w.path)) = Except.ok [] :=
  ⟨rfl, rfl⟩

/-- Claim C2 (amended: when the dataset is empty the run writes no daily
pages and no index page either, returning successfully; the index
renderer itself, had it been called, would render the single
`No news data found.` placeholder row in place of the list). -/
theorem C2_empty_run (files : List SrcFile) (nowYear : Nat)
    (h : load_data files = []) :
    main_run files nowYear = Except.ok [] ∧
    list_items_str [] = Except.ok "" ∧
    index_list_section "" = "<div class=\"list-group-item\">No news data found.</div>" := by
  refine ⟨?_, rfl, rfl⟩
  simp [main_run, h]

/-- Claim C2, witness: the empty content root. -/
theorem C2_empty_run_w :
    main_run [] 2024 = Except.ok [] ∧
    list_items_str [] = Except.ok "" ∧
    index_list_section "" = "<div class=\"list-group-item\">No news data found.</div>" :=
  C2_empty_run [] 2024 rfl

/-- Claim C1, refutation of the claim as stated: two files in different
subdirectories with the same date stem each contribute their own record -
`load_data` never deduplicates - so the Dataset holds two DayRecords for
one date and is not strictly descending. -/
theorem C1_counterexample :
    ((load_data
        [⟨"content/a/2024-01-01.json", "2024-01-01.json", .ok (.arr [])⟩,
         ⟨"content/b/2024-01-01.json", "2024-01-01.json", .ok (.arr [])⟩]).map
      (fun r => r.date)) = [⟨2024, 1, 1⟩, ⟨2024, 1, 1⟩] ∧
    ¬ ((load_data
        [⟨"content/a/2024-01-01.json", "2024-01-01.json", .ok (.arr [])⟩,
         ⟨"content/b/2024-01-01.json", "2024-01-01.json", .ok (.arr [])⟩]).map
      (fun r => r.date)).Nodup ∧
    ¬ ((load_data
        [⟨"content/a/2024-01-01.json", "2024-01-01.json", .ok (.arr [])⟩,
         ⟨"content/b/2024-01-01.json", "2024-01-01.json", .ok (.arr [])⟩]).map
      (fun r => r.date)).Pairwise (fun a b => Date.lt b a) :=
  ⟨by decide, by decide, by decide⟩

/-- Claim C1 (amended: the Dataset holds one DayRecord per successfully
loaded file; when the valid date stems are pairwise distinct it holds
exactly one DayRecord per distinct date and is strictly descending by
date.  Duplicate dates each keep their own record - nothing is overridden
inside the Dataset; only the page writes for equal dates later target the
same output path). -/
theorem C1_dataset (files : List SrcFile)
    (h : ((loaded_records files).map (fun r => r.date)).Nodup) :
    ((load_data files).map (fun r => r.date)).Perm
      ((loaded_records files).map (fun r => r.date)) ∧
    ((load_data files).map (fun r => r.date)).Nodup ∧
    (load_data files).Pairwise (fun a b => Date.lt b.date a.date) := by
  have hperm : (load_data files).Perm (loaded_records files) :=
    List.perm_insertionSort dayGe (loaded_records files)
  have hmap := hperm.map (fun r => r.date)
  have hnd : ((load_data files).map (fun r => r.date)).Nodup :=
    hmap.nodup_iff.mpr h
  refine ⟨hmap, hnd, ?_⟩
  have hsorted : (load_data files).Pairwise dayGe :=
    List.sorted_insertionSort dayGe (loaded_records files)
  have hne : (load_data files).Pairwise (fun a b => a.date ≠ b.date) :=
    List.pairwise_map.mp hnd
  exact (hsorted.and hne).imp
    (fun hab => Date.lt_of_le_of_ne hab.1 (Ne.symm hab.2))

/-- Claim C1, witness: two distinct valid dates load into a strictly
descending, duplicate-free Dataset. -/
theorem C1_dataset_w :
    ((load_data
        [⟨"content/2024-01-02.json", "2024-01-02.json", .ok (.arr [])⟩,
         ⟨"content/2024-01-03.json", "2024-01-03.json", .ok (.arr [])⟩]).map
      (fun r => r.date)).Nodup ∧
    (load_data
        [⟨"content/2024-01-02.json", "2024-01-02.json", .ok (.arr [])⟩,
         ⟨"content/2024-01-03.json", "2024-01-03.json", .ok (.arr [])⟩]).Pairwise
      (fun a b => Date.lt b.date a.date) := by
  have h := C1_dataset
    [⟨"content/2024-01-02.json", "2024-01-02.json", .ok (.arr [])⟩,
     ⟨"content/2024-01-03.json", "2024-01-03.json", .ok (.arr [])⟩] (by decide)
  exact ⟨h.2.1, h.2.2⟩

/-- Claim C8 (confirmed): a `.json` file whose stem is not a valid date,
or whose body cannot be read or JSON-decoded, is skipped with a printed
diagnostic; it contributes nothing to the Dataset, leaves every other
file's record untouched, and the whole run behaves exactly as if the file
were absent. -/
theorem C8_skip (xs ys : List SrcFile) (f : SrcFile) (nowYear : Nat)
    (hjson : endswithJson f.name = true)
    (hbad : load_rec f = none) :
    load_data (xs ++ f :: ys) = load_data (xs ++ ys) ∧
    load_diags (xs ++ f :: ys) =
      load_diags xs ++ (load_diag f).toList ++ load_diags ys ∧
    (load_diag f).isSome = true ∧
    main_run (xs ++ f :: ys) nowYear = main_run (xs ++ ys) nowYear := by
  have hrec : loaded_records (xs ++ f :: ys) = loaded_records (xs ++ ys) := by
    simp [loaded_records, List.filterMap_append, List.filterMap_cons, hbad]
  have hld : load_data (xs ++ f :: ys) = load_data (xs ++ ys) := by
    simp [load_data, hrec]
  refine ⟨hld, ?_, ?_, ?_⟩
  · cases hd : load_diag f <;>
      simp [load_diags, List.filterMap_append, List.filterMap_cons, hd]
  · unfold load_rec at hbad
    rw [hjson] at hbad
    simp only [if_true] at hbad
    unfold load_diag
    rw [hjson]
    simp only [if_true]
    cases hp : parseDate (stemOf f.name) with
    | none => simp
    | some d =>
      rw [hp] at hbad
      cases hb : f.body with
      | ok c => rw [hb] at hbad; exact absurd hbad (by simp)
      | error e => cases e <;> simp [hb]
  · simp only [main_run, hld]

/-- Claim C8, witness: a `.json` file with a non-date stem between two
good files is excluded with a diagnostic and changes nothing else. -/
theorem C8_skip_w :
    load_data
      [⟨"content/2024-01-02.json", "2024-01-02.json", .ok (.arr [])⟩,
       ⟨"content/notes.json", "notes.json", .ok (.arr [])⟩,
       ⟨"content/2024-01-01.json", "2024-01-01.json", .ok (.arr [])⟩] =
    load_data
      [⟨"content/2024-01-02.json", "2024-01-02.json", .ok (.arr [])⟩,
       ⟨"content/2024-01-01.json", "2024-01-01.json", .ok (.arr [])⟩] ∧
    (load_diag ⟨"content/notes.json", "notes.json", .ok (.arr [])⟩).isSome = true := by
  have h := C8_skip
    [⟨"content/2024-01-02.json", "2024-01-02.json", .ok (.arr [])⟩]
    [⟨"content/2024-01-01.json", "2024-01-01.json", .ok (.arr [])⟩]
    ⟨"content/notes.json", "notes.json", .ok (.arr [])⟩ 2024 (by decide) rfl
  exact ⟨h.1, h.2.2.1⟩

/-- The grouping loop succeeds whenever every entry is an object and
every present section value is a hashable (non-container) JSON value. -/
theorem group_sections_ok (entries : List Json)
    (hobj : ∀ e ∈ entries, ∃ kvs, e = Json.obj kvs)
    (hkey : ∀ kvs, Json.obj kvs ∈ entries → hashableKey (section_key kvs) = true) :
    ∀ secs, ∃ out, group_sections entries secs = Except.ok out := by
  induction entries with
  | nil => intro secs; exact ⟨secs, rfl⟩
  | cons e rest ih =>
    intro secs
    obtain ⟨kvs, rfl⟩ := hobj e (by simp)
    have hk := hkey kvs (by simp)
    have ih2 := ih (fun e he => hobj e (by simp [he]))
      (fun kvs2 h2 => hkey kvs2 (by simp [h2]))
    obtain ⟨out, hout⟩ := ih2 (addToSection secs (section_key kvs) kvs)
    exact ⟨out, by simp [group_sections, hk, hout]⟩

/-- Claim C3, refutation of the claim as stated: a day whose JSON content
is an array with a non-object element makes rendering raise - `entry.get`
is an `AttributeError` on an `int` - rather than fall back to defaults. -/
theorem C3_counterexample :
    generate_daily_page
      ⟨⟨2024, 1, 2⟩, Json.arr [Json.num 1], "content/2024-01-02.json"⟩
      none none 2024
      = Except.error "AttributeError: object has no attribute get" := rfl

/-- Claim C3 (amended: rendering a daily page never raises provided the
day's content is a JSON array whose elements are all objects and whose
present section values are non-container JSON values; a non-object
element raises `AttributeError` at the field access, non-iterable content
raises `TypeError`, and an array- or object-valued section name raises
`TypeError` at the dict insertion.  Within that domain every item-field
access falls back to its documented default). -/
theorem C3_render_total (item : DayRecord) (previous_date next_date : Option Date)
    (nowYear : Nat) (entries : List Json)
    (hc : item.content = Json.arr entries)
    (hobj : ∀ e ∈ entries, ∃ kvs, e = Json.obj kvs)
    (hkey : ∀ kvs, Json.obj kvs ∈ entries → hashableKey (section_key kvs) = true) :
    (generate_daily_page item previous_date next_date nowYear).isOk = true := by
  obtain ⟨out, hout⟩ := group_sections_ok entries hobj hkey []
  simp only [generate_daily_page, hc]
  rw [show pyIter (Json.arr entries) = Except.ok entries from rfl]
  simp only [except_bind_ok]
  rw [hout]
  simp only [except_bind_ok]
  rfl

/-- Claim C3, witness: a well-formed day (array of objects) renders. -/
theorem C3_render_total_w :
    (generate_daily_page
      ⟨⟨2024, 1, 2⟩, Json.arr [Json.obj [("标题", Json.str "t")]], "p"⟩
      none none 2024).isOk = true := by
  refine C3_render_total _ none none 2024 [Json.obj [("标题", Json.str "t")]] rfl ?_ ?_
  · intro e he
    simp at he
    exact ⟨_, he⟩
  · intro kvs h
    simp at h
    subst h
    decide

/-- Claim C4 (confirmed): for record `i` of the descending Dataset, the
record immediately before it (index `i-1`) is offered as the enabled
`&larr; Next Day` link and the record immediately after it (index `i+1`)
as the enabled `Previous Day &rarr;` link; the first record gets a
disabled `Next Day` control and the last a disabled `Previous Day`
control; and under strict descending order the `Next Day` target is
chronologically later and the `Previous Day` target chronologically
earlier than the current record. -/
theorem C4_neighbors (data : List DayRecord) (i : Nat) (hi : i < data.length) :
    (∀ r, 0 < i → data.get? (i - 1) = some r →
      nextDateAt data i = some r.date ∧
      ∀ out, next_control out (nextDateAt data i) =
        "<a href=\"" ++ get_relative_path out (get_daily_path r.date) ++
          "\" class=\"btn btn-outline-primary me-2\">&larr; Next Day</a>") ∧
    (i = 0 →
      nextDateAt data i = none ∧
      ∀ out, next_control out (nextDateAt data i) =
        "<button class=\"btn btn-outline-secondary me-2\" disabled>&larr; Next Day</button>") ∧
    (∀ r, data.get? (i + 1) = some r →
      prevDateAt data i = some r.date ∧
      ∀ out, prev_control out (prevDateAt data i) =
        "<a href=\"" ++ get_relative_path out (get_daily_path r.date) ++
          "\" class=\"btn btn-outline-primary\">Previous Day &rarr;</a>") ∧
    (i + 1 = data.length →
      prevDateAt data i = none ∧
      ∀ out, prev_control out (prevDateAt data i) =
        "<button class=\"btn btn-outline-secondary\" disabled>Previous Day &rarr;</button>") ∧
    (data.Pairwise (fun a b => Date.lt b.date a.date) →
      (∀ r cur, 0 < i → data.get? (i - 1) = some r → data.get? i = some cur →
        Date.lt cur.date r.date) ∧
      (∀ r cur, data.get? (i + 1) = some r → data.get? i = some cur →
        Date.lt r.date cur.date)) := by
  refine ⟨?_, ?_, ?_, ?_, ?_⟩
  · intro r h0 hr
    have hnd : nextDateAt data i = some r.date := by
      unfold nextDateAt
      rw [if_pos h0, hr]
      rfl
    exact ⟨hnd, fun out => by rw [hnd]; rfl⟩
  · intro h0
    subst h0
    have hnd : nextDateAt data 0 = none := by
      unfold nextDateAt
      rw [if_neg (by omega)]
    exact ⟨hnd, fun out => by rw [hnd]; rfl⟩
  · intro r hr
    have hlt : i + 1 < data.length := (List.get?_eq_some.mp hr).1
    have hpd : prevDateAt data i = some r.date := by
      unfold prevDateAt
      rw [if_pos (by omega : i < data.length - 1), hr]
      rfl
    exact ⟨hpd, fun out => by rw [hpd]; rfl⟩
  · intro hlast
    have hpd : prevDateAt data i = none := by
      unfold prevDateAt
      rw [if_neg (by omega : ¬ i < data.length - 1)]
    exact ⟨hpd, fun out => by rw [hpd]; rfl⟩
  · intro hpw
    have hget := List.pairwise_iff_get.mp hpw
    constructor
    · intro r cur h0 hr hcur
      obtain ⟨h1, e1⟩ := List.get?_eq_some.mp hr
      obtain ⟨h2, e2⟩ := List.get?_eq_some.mp hcur
      have := hget ⟨i - 1, h1⟩ ⟨i, h2⟩ (Fin.mk_lt_mk.mpr (by omega))
      rw [e1, e2] at this
      exact this
    · intro r cur hr hcur
      obtain ⟨h1, e1⟩ := List.get?_eq_some.mp hr
      obtain ⟨h2, e2⟩ := List.get?_eq_some.mp hcur
      have := hget ⟨i, h2⟩ ⟨i + 1, h1⟩ (Fin.mk_lt_mk.mpr (by omega))
      rw [e1, e2] at this
      exact this

/-- Claim C4, witness: the spec's three-day Dataset `[d0 > d1 > d2]` -
the middle page links up to `d0` and down to `d2`, the newest page has a
disabled next control, the oldest a disabled previous control. -/
theorem C4_neighbors_w :
    nextDateAt
      [⟨⟨2024, 1, 3⟩, .arr [], "p0"⟩, ⟨⟨2024, 1, 2⟩, .arr [], "p1"⟩,
       ⟨⟨2024, 1, 1⟩, .arr [], "p2"⟩] 1 = some ⟨2024, 1, 3⟩ ∧
    prevDateAt
      [⟨⟨2024, 1, 3⟩, .arr [], "p0"⟩, ⟨⟨2024, 1, 2⟩, .arr [], "p1"⟩,
       ⟨⟨2024, 1, 1⟩, .arr [], "p2"⟩] 1 = some ⟨2024, 1, 1⟩ ∧
    next_control "public/2024/01/03.html"
      (nextDateAt
        [⟨⟨2024, 1, 3⟩, .arr [], "p0"⟩, ⟨⟨2024, 1, 2⟩, .arr [], "p1"⟩,
         ⟨⟨2024, 1, 1⟩, .arr [], "p2"⟩] 0) =
      "<button class=\"btn btn-outline-secondary me-2\" disabled>&larr; Next Day</button>" ∧
    prev_control "public/2024/01/01.html"
      (prevDateAt
        [⟨⟨2024, 1, 3⟩, .arr [], "p0"⟩, ⟨⟨2024, 1, 2⟩, .arr [], "p1"⟩,
         ⟨⟨2024, 1, 1⟩, .arr [], "p2"⟩] 2) =
      "<button class=\"btn btn-outline-secondary\" disabled>Previous Day &rarr;</button>" ∧
    Date.lt (⟨2024, 1, 2⟩ : Date) ⟨2024, 1, 3⟩ ∧
    Date.lt (⟨2024, 1, 1⟩ : Date) ⟨2024, 1, 2⟩ := by
  have h1 := C4_neighbors
    [⟨⟨2024, 1, 3⟩, .arr [], "p0"⟩, ⟨⟨2024, 1, 2⟩, .arr [], "p1"⟩,
     ⟨⟨2024, 1, 1⟩, .arr [], "p2"⟩] 1 (by decide)
  have h0 := C4_neighbors
    [⟨⟨2024, 1, 3⟩, .arr [], "p0"⟩, ⟨⟨2024, 1, 2⟩, .arr [], "p1"⟩,
     ⟨⟨2024, 1, 1⟩, .arr [], "p2"⟩] 0 (by decide)
  have h2 := C4_neighbors
    [⟨⟨2024, 1, 3⟩, .arr [], "p0"⟩, ⟨⟨2024, 1, 2⟩, .arr [], "p1"⟩,
     ⟨⟨2024, 1, 1⟩, .arr [], "p2"⟩] 2 (by decide)
  have hpw :
      ([⟨⟨2024, 1, 3⟩, .arr [], "p0"⟩, ⟨⟨2024, 1, 2⟩, .arr [], "p1"⟩,
        ⟨⟨2024, 1, 1⟩, .arr [], "p2"⟩] : List DayRecord).Pairwise
        (fun a b => Date.lt b.date a.date) := by decide
  refine ⟨(h1.1 _ (by decide) rfl).1, (h1.2.2.1 _ rfl).1,
    (h0.2.1 rfl).2 "public/2024/01/03.html",
    (h2.2.2.2.1 rfl).2 "public/2024/01/01.html",
    (h1.2.2.2.2 hpw).1 _ _ (by decide) rfl rfl,
    (h1.2.2.2.2 hpw).2 _ _ rfl rfl⟩

/-- Successful row computation yields one row per listed day. -/
theorem rows_of_length : ∀ (l : List DayRecord) (rows : List String),
    rows_of l = Except.ok rows → rows.length = l.length := by
  intro l
  induction l with
  | nil =>
    intro rows h
    rw [show rows_of [] = Except.ok [] from rfl] at h
    injection h with h
    subst h
    rfl
  | cons x xs ih =>
    intro rows h
    rw [show rows_of (x :: xs) = (index_row x) >>= (fun r =>
        (rows_of xs) >>= (fun rs => pure (r :: rs))) from rfl] at h
    cases hr : index_row x with
    | error e => rw [hr] at h; exact absurd h (by simp [Bind.bind, Except.bind])
    | ok r =>
      rw [hr] at h
      cases hrs : rows_of xs with
      | error e =>
        rw [hrs] at h
        exact absurd h (by simp [Bind.bind, Except.bind])
      | ok rs =>
        rw [hrs] at h
        have : Except.ok (ε := String) (r :: rs) = Except.ok rows := h
        injection this with this
        subst this
        simp [ih rs hrs]

/-- Successful row computation computes each row from the day at the same
position. -/
theorem rows_of_get : ∀ (l : List DayRecord) (rows : List String),
    rows_of l = Except.ok rows →
    ∀ (i : Nat) (hi : i < l.length) (hr : i < rows.length),
      index_row (l.get ⟨i, hi⟩) = Except.ok (rows.get ⟨i, hr⟩) := by
  intro l
  induction l with
  | nil => intro rows _ i hi; exact absurd hi (by simp)
  | cons x xs ih =>
    intro rows h i hi hr
    rw [show rows_of (x :: xs) = (index_row x) >>= (fun r =>
        (rows_of xs) >>= (fun rs => pure (r :: rs))) from rfl] at h
    cases hx : index_row x with
    | error e => rw [hx] at h; exact absurd h (by simp [Bind.bind, Except.bind])
    | ok r =>
      rw [hx] at h
      cases hrs : rows_of xs with
      | error e =>
        rw [hrs] at h
        exact absurd h (by simp [Bind.bind, Except.bind])
      | ok rs =>
        rw [hrs] at h
        have heq : Except.ok (ε := String) (r :: rs) = Except.ok rows := h
        injection heq with heq
        subst heq
        match i with
        | 0 => simpa using hx
        | j + 1 =>
          have hj : j < xs.length := by simpa using hi
          have hjr : j < rs.length := by simpa using hr
          simpa using ih rs hrs j hj hjr

/-- `pure` in the `Except` monad is `Except.ok`. -/
theorem except_pure {ε α : Type} (a : α) : (pure a : Except ε α) = Except.ok a := rfl

/-- Bind after `pure` in the `Except` monad. -/
theorem except_pure_bind {ε α β : Type} (a : α) (f : α → Except ε β) :
    (pure a : Except ε α) >>= f = f a := rfl

/-- The `list_items +=` loop equals the per-row computation followed by
concatenation. -/
theorem list_items_fold : ∀ (l : List DayRecord) (acc : String),
    (l.foldlM (fun acc it => do
      let r ← index_row it
      pure (acc ++ r)) acc : Except String String)
      = (rows_of l).map (fun rs => acc ++ strConcat rs) := by
  intro l
  induction l with
  | nil =>
    intro acc
    show Except.ok acc = (Except.ok []).map _
    simp [Except.map, strConcat]
  | cons x xs ih =>
    intro acc
    rw [List.foldlM_cons]
    rw [show rows_of (x :: xs) = (index_row x) >>= (fun r =>
        (rows_of xs) >>= (fun rs => pure (r :: rs))) from rfl]
    cases hx : index_row x with
    | error e => rfl
    | ok r =>
      simp only [except_bind_ok, except_pure_bind]
      rw [ih (acc ++ r)]
      cases hrs : rows_of xs with
      | error e => rfl
      | ok rs =>
        simp only [except_bind_ok, except_pure, Except.map, strConcat]
        rw [String.append_assoc]

/-- Claim C6 (confirmed): the index page's list renders exactly the rows
of the first `min 5 N` entries of the date-descending Dataset, in order,
and for an array-content day the row at position `i` carries that day's
formatted date, item count and `year/MM/DD.html` link (the row template
`index_row_str`). -/
theorem C6_index (data : List DayRecord) (rows : List String)
    (h : rows_of (data.take 5) = Except.ok rows) :
    list_items_str data = Except.ok (strConcat rows) ∧
    rows.length = min 5 data.length ∧
    ∀ (i : Nat) (hi : i < (data.take 5).length) (xs : List Json),
      ((data.take 5).get ⟨i, hi⟩).content = Json.arr xs →
      ∃ hr : i < rows.length,
        rows.get ⟨i, hr⟩ =
          index_row_str ((data.take 5).get ⟨i, hi⟩).date xs.length := by
  have hlen : rows.length = (data.take 5).length := rows_of_length _ _ h
  refine ⟨?_, ?_, ?_⟩
  · unfold list_items_str
    rw [list_items_fold, h]
    simp [Except.map, String.empty_append]
  · rw [hlen, List.length_take]
  · intro i hi xs hxs
    have hr : i < rows.length := by rw [hlen]; exact hi
    refine ⟨hr, ?_⟩
    have := rows_of_get _ _ h i hi hr
    rw [show index_row ((data.take 5).get ⟨i, hi⟩)
        = (pyLen ((data.take 5).get ⟨i, hi⟩).content) >>= (fun n =>
            pure (index_row_str ((data.take 5).get ⟨i, hi⟩).date n)) from rfl,
      hxs] at this
    rw [show pyLen (Json.arr xs) = Except.ok xs.length from rfl] at this
    rw [except_bind_ok] at this
    have h2 : Except.ok (ε := String)
        (index_row_str ((data.take 5).get ⟨i, hi⟩).date xs.length)
        = Except.ok (rows.get ⟨i, hr⟩) := this
    injection h2 with h2
    exact h2.symm

/-- Claim C6, witness: a one-day Dataset renders a one-row list with that
day's row. -/
theorem C6_index_w :
    list_items_str [⟨⟨2024, 1, 2⟩, Json.arr [], "p"⟩]
      = Except.ok (strConcat [index_row_str ⟨2024, 1, 2⟩ 0]) :=
  (C6_index [⟨⟨2024, 1, 2⟩, Json.arr [], "p"⟩] [index_row_str ⟨2024, 1, 2⟩ 0] rfl).1
